import Mathlib

/-!
Shallow embedding of the Pico W penlight firmware (`main_multi_gpio.py`,
the multi-strip variant, and `main.py`, the single-strip variant).

Modelling conventions:
* Python integers are `ℤ` (unbounded, as in Python); the non-negative
  cursor `pattern_index` (starts at 0, only incremented or reduced mod a
  length) is `ℕ`.
* A color is the triple `(r, g, b) : ℤ × ℤ × ℤ` of Python ints.
* The hardware state of a strip is the NeoPixel buffer after `write()`:
  a list of colors, one per LED.  Every public operation that touches a
  pixel also calls `write()`, so buffer = hardware.
* `time.ticks_ms` values are `ℤ` passed in as a `now` argument;
  `time.ticks_diff(now, prev)` (wraparound-safe signed delta) is modelled
  as plain subtraction `now - prev` over the unbounded `ℤ` clock.
* Python float arithmetic in `_hsv_to_rgb` is modelled over `ℚ`.
* A Python expression that can raise (list indexing out of range) is
  modelled with `Option`: `none` is an uncaught exception.
-/

namespace Penlight

/-- A color: Python int triple `(r, g, b)`. -/
abbrev Color := ℤ × ℤ × ℤ

/-- Python `int(q)` on a float/rational: truncation toward zero. -/
def pyInt (q : ℚ) : ℤ :=
  if q < 0 then -⌊-q⌋ else ⌊q⌋

/-- Python `a % b` on floats (result has the sign of the divisor;
for `b > 0` this is `a - b * ⌊a / b⌋`). -/
def pyMod (a b : ℚ) : ℚ :=
  a - b * ⌊a / b⌋

/-- Python string primitives are modelled by structural recursion over
the character list of a `String` (Lean's own `String.trim` etc. are
avoided: they do not matter semantically and their `Substring`
implementation does not reduce in the kernel). -/
def trimChars (l : List Char) : List Char :=
  ((l.dropWhile Char.isWhitespace).reverse.dropWhile Char.isWhitespace).reverse

/-- Python `str.strip()` (ASCII whitespace; the protocol grammar is
ASCII). -/
def pyStrip (s : String) : String :=
  String.mk (trimChars s.data)

/-- Does the second list start with the first?  Models Python
`str.startswith` at the character level. -/
def beginsWith : List Char → List Char → Bool
  | [], _ => true
  | _ :: _, [] => false
  | p :: ps, c :: cs => p = c && beginsWith ps cs

/-- Python `str.startswith(pre)`. -/
def pyStartsWith (s pre : String) : Bool :=
  beginsWith pre.data s.data

/-- Python `str.split(sep)` for a one-character separator (always a
non-empty result list, like Python's). -/
def splitOnChar (sep : Char) : List Char → List (List Char)
  | [] => [[]]
  | c :: cs =>
    let rest := splitOnChar sep cs
    if c = sep then
      [] :: rest
    else
      match rest with
      | [] => [[c]]
      | r :: rs => (c :: r) :: rs

/-- Decimal digit run to a number: `none` unless the list is non-empty
and all digits. -/
def digitsToNat (l : List Char) : Option ℕ :=
  if l ≠ [] ∧ l.all Char.isDigit then
    some (l.foldl (fun n c => 10 * n + (c.toNat - 48)) 0)
  else
    none

/-- Python `int(str)`: strip whitespace, optional sign, decimal digits.
(Underscore separators and non-ASCII digits accepted by Python are not
modelled; no command in the protocol uses them.) -/
def pyParseInt (s : String) : Option ℤ :=
  match trimChars s.data with
  | '-' :: rest => (digitsToNat rest).map (fun n => -(n : ℤ))
  | '+' :: rest => (digitsToNat rest).map (fun n => (n : ℤ))
  | t => (digitsToNat t).map (fun n => (n : ℤ))

/-- Models `bytes.decode('utf-8')` for the ASCII payloads the protocol
grammar uses; a byte outside the ASCII range is mapped to a decode
failure (in Python a multi-byte sequence may instead decode to a
non-ASCII string, which the command dispatcher then ignores — the
resulting engine state is the same). -/
def asciiDecode (value : List ℕ) : Option String :=
  if value.all (· < 128) then
    some (String.mk (value.map (fun b => Char.ofNat b)))
  else
    none

namespace Multi

/-- `MultiStripColorlightController` state (`main_multi_gpio.py`).
`strips` holds one NeoPixel buffer per configured strip; the source's
`num_leds` field is the buffer length and `pin` is display-only, so
neither is modelled separately.  The immutable palettes
(`pattern_colors`, `gradient_colors`) are top-level constants below. -/
structure Controller where
  strips : List (List Color)
  current_color : Color
  auto_mode : Bool
  pattern_type : ℤ
  pattern_index : ℕ
  last_pattern_update : ℤ
deriving DecidableEq

/-- `self.pattern_colors`: the fixed 7-color palette. -/
def pattern_colors : List Color :=
  [(255, 0, 0), (255, 165, 0), (255, 255, 0), (0, 255, 0),
   (0, 0, 255), (128, 0, 128), (255, 20, 147)]

/-- `_hsv_to_rgb(h, s, v)`, float arithmetic modelled over `ℚ`. -/
def hsv_to_rgb (h s v : ℤ) : Color :=
  let s' : ℚ := (s : ℚ) / 100
  let v' : ℚ := (v : ℚ) / 100
  let c : ℚ := v' * s'
  let x : ℚ := c * (1 - |pyMod ((h : ℚ) / 60) 2 - 1|)
  let m : ℚ := v' - c
  let rgb : ℚ × ℚ × ℚ :=
    if 0 ≤ h ∧ h < 60 then (c, x, 0)
    else if 60 ≤ h ∧ h < 120 then (x, c, 0)
    else if 120 ≤ h ∧ h < 180 then (0, c, x)
    else if 180 ≤ h ∧ h < 240 then (0, x, c)
    else if 240 ≤ h ∧ h < 300 then (x, 0, c)
    else (c, 0, x)
  (pyInt ((rgb.1 + m) * 255), pyInt ((rgb.2.1 + m) * 255), pyInt ((rgb.2.2 + m) * 255))

/-- The hue `(i * 360) // steps` used by `_generate_rainbow_gradient`. -/
def rainbowHue (steps i : ℕ) : ℕ :=
  (i * 360) / steps

/-- `_generate_rainbow_gradient(steps)`. -/
def generate_rainbow_gradient (steps : ℕ) : List Color :=
  (List.range steps).map (fun i => hsv_to_rgb (rainbowHue steps i) 100 100)

/-- `self.gradient_colors = self._generate_rainbow_gradient(96)`. -/
def gradient_colors : List Color :=
  generate_rainbow_gradient 96

/-- `__init__` with the repository's `LED_STRIPS` configuration
(GPIO6 with 8 LEDs, GPIO7 with 8 LEDs); a fresh NeoPixel buffer is
all zeroes.  `t0` is `time.ticks_ms()` at construction. -/
def init (t0 : ℤ) : Controller where
  strips := [List.replicate 8 (0, 0, 0), List.replicate 8 (0, 0, 0)]
  current_color := (0, 0, 0)
  auto_mode := false
  pattern_type := 1
  pattern_index := 0
  last_pattern_update := t0

/-- `set_color(r, g, b)`: sets `current_color` and writes the color to
every LED of every strip. -/
def set_color (c : Controller) (r g b : ℤ) : Controller :=
  { c with
    current_color := (r, g, b)
    strips := c.strips.map (fun s => s.map (fun _ => (r, g, b))) }

/-- `set_strip_color(strip_index, r, g, b)`: writes the color to every
LED of the addressed strip only; guarded by
`0 <= strip_index < len(self.strips)`. -/
def set_strip_color (c : Controller) (strip_index : ℤ) (r g b : ℤ) : Controller :=
  if 0 ≤ strip_index ∧ strip_index < (c.strips.length : ℤ) then
    let i := strip_index.toNat
    { c with strips := c.strips.set i ((c.strips.getD i []).map (fun _ => (r, g, b))) }
  else
    c

/-- `clear_leds()`. -/
def clear_leds (c : Controller) : Controller :=
  set_color c 0 0 0

/-- `start_auto_mode(pattern_type)`; `now` is `time.ticks_ms()`. -/
def start_auto_mode (c : Controller) (pt : ℤ) (now : ℤ) : Controller :=
  { c with
    auto_mode := true
    pattern_type := pt
    pattern_index := 0
    last_pattern_update := now }

/-- `stop_auto_mode()`: clears `auto_mode` then `clear_leds()`. -/
def stop_auto_mode (c : Controller) : Controller :=
  clear_leds { c with auto_mode := false }

/-- `interval = 500 if self.pattern_type == 3 else 1000`. -/
def interval (pt : ℤ) : ℤ :=
  if pt = 3 then 500 else 1000

/-- `update_auto_mode()`; `now` is `time.ticks_ms()`.  `none` models an
uncaught `IndexError` from `pattern_colors[...]` / `gradient_colors[...]`
(patterns 1 and 3 index with the raw cursor).  Patterns 2 and 4 index
with `(pattern_index // 2) % len(pattern_colors)`, which is always in
range, so plain `getD` models them exactly. -/
def update_auto_mode (c : Controller) (now : ℤ) : Option Controller :=
  if c.auto_mode = false then
    some c
  else if interval c.pattern_type ≤ now - c.last_pattern_update then
    let stepped : Option Controller :=
      if c.pattern_type = 1 then
        match pattern_colors.get? c.pattern_index with
        | none => none
        | some col =>
          let c1 := set_color c col.1 col.2.1 col.2.2
          some { c1 with pattern_index := (c.pattern_index + 1) % pattern_colors.length }
      else if c.pattern_type = 2 then
        let c1 :=
          if c.pattern_index % 2 = 0 then
            let col := pattern_colors.getD ((c.pattern_index / 2) % pattern_colors.length) (0, 0, 0)
            set_color c col.1 col.2.1 col.2.2
          else
            clear_leds c
        some { c1 with pattern_index := c.pattern_index + 1 }
      else if c.pattern_type = 3 then
        match gradient_colors.get? c.pattern_index with
        | none => none
        | some col =>
          let c1 := set_color c col.1 col.2.1 col.2.2
          some { c1 with pattern_index := (c.pattern_index + 1) % gradient_colors.length }
      else if c.pattern_type = 4 then
        let col := pattern_colors.getD ((c.pattern_index / 2) % pattern_colors.length) (0, 0, 0)
        let c1 := (List.range c.strips.length).foldl
          (fun acc i =>
            if (c.pattern_index + i) % 2 = 0 then
              set_strip_color acc (i : ℤ) col.1 col.2.1 col.2.2
            else
              set_strip_color acc (i : ℤ) 0 0 0)
          c
        some { c1 with pattern_index := c.pattern_index + 1 }
      else
        some c
    match stepped with
    | none => none
    | some c2 => some { c2 with last_pattern_update := now }
  else
    some c

/-- `BluetoothService` state (`main_multi_gpio.py`).  The BLE stack is
external: advertising and `print` are pure side effects with no state
here; the characteristic handles returned by
`gatts_register_services` are opaque integers. -/
structure Service where
  colorlight : Controller
  device_id : ℤ
  color_handle : ℤ
  control_handle : ℤ
  connections : Finset ℤ
deriving DecidableEq

/-- `_irq` event 1 (`_IRQ_CENTRAL_CONNECT`): add the handle to
`connections`. -/
def on_connect (s : Service) (conn_handle : ℤ) : Service :=
  { s with connections := insert conn_handle s.connections }

/-- `_irq` event 2 (`_IRQ_CENTRAL_DISCONNECT`): `connections.discard`
then `_advertise()` — nothing else; the controller is untouched. -/
def on_disconnect (s : Service) (conn_handle : ℤ) : Service :=
  { s with connections := s.connections.erase conn_handle }

/-- `_handle_command(command)`; `now` is `time.ticks_ms()` from inside
`start_auto_mode`.  Every exception branch (`split(':')[1]` out of
range, `int(...)` parse failure) is caught by the handler's
`try/except`, leaving the controller untouched. -/
def handle_command (c : Controller) (command : String) (now : ℤ) : Controller :=
  if pyStartsWith command "AUTO:" then
    match (splitOnChar ':' command.data).get? 1 with
    | none => c
    | some arg =>
      match pyParseInt (String.mk arg) with
      | none => c
      | some n => start_auto_mode c n now
  else if command = "STOP" then
    stop_auto_mode c
  else if command = "CLEAR" then
    clear_leds (stop_auto_mode c)
  else if pyStartsWith command "MUSIC:" then
    match (splitOnChar ':' command.data).get? 1 with
    | none => c
    | some arg =>
      match pyParseInt (String.mk arg) with
      | none => c
      | some _ => stop_auto_mode c
  else
    c

/-- `_handle_write(value_handle, value)`; the payload is the list of
byte values read back by `gatts_read`.  A decode failure on the control
characteristic is caught by the surrounding `try/except` (no state
change). -/
def handle_write (s : Service) (value_handle : ℤ) (value : List ℕ) (now : ℤ) : Service :=
  if value_handle = s.color_handle then
    if 3 ≤ value.length then
      let r : ℤ := value.getD 0 0
      let g : ℤ := value.getD 1 0
      let b : ℤ := value.getD 2 0
      { s with colorlight := set_color (stop_auto_mode s.colorlight) r g b }
    else
      s
  else if value_handle = s.control_handle then
    match asciiDecode value with
    | none => s
    | some text => { s with colorlight := handle_command s.colorlight (pyStrip text) now }
  else
    s

end Multi

namespace Single

/-- `ColorlightController` state (`main.py`): a single NeoPixel buffer
`np` (the source's `num_leds` is its length). -/
structure Controller where
  np : List Color
  current_color : Color
  auto_mode : Bool
  pattern_type : ℤ
  pattern_index : ℕ
  last_pattern_update : ℤ
deriving DecidableEq

/-- `__init__` with the repository's configuration (1 LED on GPIO6);
`t0` is `time.ticks_ms()` at construction. -/
def init (t0 : ℤ) : Controller where
  np := [(0, 0, 0)]
  current_color := (0, 0, 0)
  auto_mode := false
  pattern_type := 1
  pattern_index := 0
  last_pattern_update := t0

/-- `set_color(r, g, b)` (`main.py`). -/
def set_color (c : Controller) (r g b : ℤ) : Controller :=
  { c with
    current_color := (r, g, b)
    np := c.np.map (fun _ => (r, g, b)) }

/-- `clear_leds()` (`main.py`). -/
def clear_leds (c : Controller) : Controller :=
  set_color c 0 0 0

/-- `stop_auto_mode()` (`main.py`). -/
def stop_auto_mode (c : Controller) : Controller :=
  clear_leds { c with auto_mode := false }

/-- `BluetoothService` state (`main.py`): adds `is_connected` and the
idle-blink fields to the multi-strip variant's state. -/
structure Service where
  penlight : Controller
  device_id : ℤ
  color_handle : ℤ
  control_handle : ℤ
  connections : Finset ℤ
  is_connected : Bool
  blink_state : Bool
  last_blink_time : ℤ
deriving DecidableEq

/-- `_irq` event 2 (`_IRQ_CENTRAL_DISCONNECT`) in `main.py`: discard
the handle, recompute `is_connected`, and if no connection remains,
`stop_auto_mode()` then `clear_leds()` (then `_advertise()`, a pure
side effect). -/
def on_disconnect (s : Service) (conn_handle : ℤ) : Service :=
  let conns := s.connections.erase conn_handle
  let isc : Bool := 0 < conns.card
  let pen := if isc then s.penlight else clear_leds (stop_auto_mode s.penlight)
  { s with connections := conns, is_connected := isc, penlight := pen }

/-- `update_waiting_blink()`; `now` is `time.ticks_ms()`. -/
def update_waiting_blink (s : Service) (now : ℤ) : Service :=
  if s.is_connected || s.penlight.auto_mode then
    s
  else if s.blink_state then
    if 100 ≤ now - s.last_blink_time then
      { s with
        penlight := clear_leds s.penlight
        blink_state := false
        last_blink_time := now }
    else
      s
  else
    if 4900 ≤ now - s.last_blink_time then
      { s with
        penlight := set_color s.penlight 0 0 255
        blink_state := true
        last_blink_time := now }
    else
      s

end Single

/-! ### Observation helpers (spec-side, used only to state properties) -/

/-- All LEDs of all strips show `col`. -/
def ledsAll (c : Multi.Controller) (col : Color) : Bool :=
  c.strips.all (fun s => s.all (fun led => decide (led = col)))

/-- A color is a valid 8-bit RGB triple. -/
def valid8 (col : Color) : Bool :=
  decide (0 ≤ col.1 ∧ col.1 ≤ 255 ∧ 0 ≤ col.2.1 ∧ col.2.1 ≤ 255 ∧
    0 ≤ col.2.2 ∧ col.2.2 ≤ 255)

/-- All LEDs of all strips are valid 8-bit colors. -/
def ledsValid (c : Multi.Controller) : Bool :=
  c.strips.all (fun s => s.all valid8)

/-- Reachable-state invariant for the raw pattern cursors: patterns 1
and 3 index their palette with `pattern_index` directly, which stays
below the palette length (it is reset to 0 by `start_auto_mode` and
reduced mod the length by each step). -/
def IndexInv (c : Multi.Controller) : Prop :=
  (c.pattern_type = 1 → c.pattern_index < 7) ∧
  (c.pattern_type = 3 → c.pattern_index < 96)

/-- A control-characteristic command is recognized when it is one of
`AUTO:<n>` / `MUSIC:<n>` with a parseable integer argument, `STOP`, or
`CLEAR`. -/
def recognized (cmd : String) : Prop :=
  (pyStartsWith cmd "AUTO:" = true ∧
    (pyParseInt (String.mk ((splitOnChar ':' cmd.data).getD 1 []))).isSome = true) ∨
  cmd = "STOP" ∨ cmd = "CLEAR" ∨
  (pyStartsWith cmd "MUSIC:" = true ∧
    (pyParseInt (String.mk ((splitOnChar ':' cmd.data).getD 1 []))).isSome = true)

instance (cmd : String) : Decidable (recognized cmd) := by
  unfold recognized
  exact inferInstance

/-! ### Concrete states used to instantiate the theorems -/

/-- A freshly started multi-strip service (handles are opaque values
returned by the BLE stack; `10` and `11` stand in for them). -/
def serviceW : Multi.Service where
  colorlight := Multi.init 0
  device_id := 1
  color_handle := 10
  control_handle := 11
  connections := ∅

/-- A multi-strip service in auto mode (pattern 3) with exactly one
live connection, handle `5`. -/
def serviceAuto : Multi.Service where
  colorlight := { Multi.init 0 with auto_mode := true, pattern_type := 3 }
  device_id := 1
  color_handle := 10
  control_handle := 11
  connections := {5}

/-- A freshly started single-strip service at `t = 0`: disconnected,
idle, blink off. -/
def singleIdle : Single.Service where
  penlight := Single.init 0
  device_id := 1
  color_handle := 10
  control_handle := 11
  connections := ∅
  is_connected := false
  blink_state := false
  last_blink_time := 0

/-- A single-strip service in auto mode with exactly one live
connection, handle `7`. -/
def singleAuto : Single.Service where
  penlight := { Single.init 0 with auto_mode := true, pattern_type := 2 }
  device_id := 1
  color_handle := 10
  control_handle := 11
  connections := {7}
  is_connected := true
  blink_state := false
  last_blink_time := 0

/-! ### Basic lemmas about the controller operations -/

lemma ledsAll_set_color (c : Multi.Controller) (r g b : ℤ) :
    ledsAll (Multi.set_color c r g b) (r, g, b) = true := by
  simp [ledsAll, Multi.set_color, List.all_eq_true]

lemma set_color_auto_mode (c : Multi.Controller) (r g b : ℤ) :
    (Multi.set_color c r g b).auto_mode = c.auto_mode := rfl

lemma stop_auto_mode_auto_mode (c : Multi.Controller) :
    (Multi.stop_auto_mode c).auto_mode = false := rfl

/-! ### C5 -/

/-- C5: for every 8-bit triple `(r,g,b)` — the boundary triples
included — `set_color(r,g,b)` followed by reading `current_color`
yields exactly `(r,g,b)`, and every LED of every strip has been
written with `(r,g,b)`. -/
theorem claim_c5 (c : Multi.Controller) (r g b : ℤ)
    (hr : 0 ≤ r ∧ r ≤ 255) (hg : 0 ≤ g ∧ g ≤ 255) (hb : 0 ≤ b ∧ b ≤ 255) :
    (Multi.set_color c r g b).current_color = (r, g, b) ∧
    ledsAll (Multi.set_color c r g b) (r, g, b) = true :=
  ⟨rfl, ledsAll_set_color c r g b⟩

/-- C5 witness: instantiated at both boundary triples on the freshly
initialized controller. -/
theorem claim_c5_witness :
    ((Multi.set_color (Multi.init 0) 0 0 0).current_color = (0, 0, 0) ∧
      ledsAll (Multi.set_color (Multi.init 0) 0 0 0) (0, 0, 0) = true) ∧
    ((Multi.set_color (Multi.init 0) 255 255 255).current_color = (255, 255, 255) ∧
      ledsAll (Multi.set_color (Multi.init 0) 255 255 255) (255, 255, 255) = true) :=
  ⟨claim_c5 (Multi.init 0) 0 0 0 (by decide) (by decide) (by decide),
   claim_c5 (Multi.init 0) 255 255 255 (by decide) (by decide) (by decide)⟩

/-! ### C7 -/

/-- C7: `set_strip_color` with an in-range index writes `(r,g,b)` to
every LED of that strip only (same LED count, all other strips and all
other controller fields — `current_color` included — unchanged), and
with an out-of-range index is a complete no-op. -/
theorem claim_c7 (c : Multi.Controller) (idx r g b : ℤ) :
    (0 ≤ idx ∧ idx < (c.strips.length : ℤ) →
      ((Multi.set_strip_color c idx r g b).strips.getD idx.toNat []).all
          (fun led => decide (led = (r, g, b))) = true ∧
      ((Multi.set_strip_color c idx r g b).strips.getD idx.toNat []).length =
        (c.strips.getD idx.toNat []).length ∧
      (Multi.set_strip_color c idx r g b).strips.length = c.strips.length ∧
      (∀ j : ℕ, j ≠ idx.toNat →
        (Multi.set_strip_color c idx r g b).strips[j]? = c.strips[j]?) ∧
      (Multi.set_strip_color c idx r g b).current_color = c.current_color ∧
      (Multi.set_strip_color c idx r g b).auto_mode = c.auto_mode ∧
      (Multi.set_strip_color c idx r g b).pattern_type = c.pattern_type ∧
      (Multi.set_strip_color c idx r g b).pattern_index = c.pattern_index ∧
      (Multi.set_strip_color c idx r g b).last_pattern_update = c.last_pattern_update) ∧
    (¬(0 ≤ idx ∧ idx < (c.strips.length : ℤ)) →
      Multi.set_strip_color c idx r g b = c) := by
  constructor
  · intro hin
    have hlt : idx.toNat < c.strips.length := by
      omega
    have hs : (Multi.set_strip_color c idx r g b).strips =
        c.strips.set idx.toNat ((c.strips.getD idx.toNat []).map (fun _ => (r, g, b))) := by
      simp [Multi.set_strip_color, if_pos hin]
    refine ⟨?_, ?_, ?_, ?_, ?_, ?_, ?_, ?_, ?_⟩
    · rw [hs, List.getD_eq_getElem?_getD, List.getElem?_set_eq_of_lt _ hlt]
      simp [List.all_eq_true]
    · rw [hs, List.getD_eq_getElem?_getD, List.getElem?_set_eq_of_lt _ hlt]
      rw [List.getD_eq_getElem?_getD, List.getElem?_eq_getElem hlt]
      simp
    · rw [hs, List.length_set]
    · intro j hj
      rw [hs, List.getElem?_set_ne (Ne.symm hj)]
    all_goals simp [Multi.set_strip_color, if_pos hin]
  · intro hout
    simp [Multi.set_strip_color, if_neg hout]

/-- C7 witness: in-range index 0 and out-of-range index 5 on the
freshly initialized two-strip controller. -/
theorem claim_c7_witness :
    ((Multi.set_strip_color (Multi.init 0) 0 9 8 7).current_color = (0, 0, 0) ∧
      ((Multi.set_strip_color (Multi.init 0) 0 9 8 7).strips.getD 0 []).all
        (fun led => decide (led = (9, 8, 7))) = true) ∧
    Multi.set_strip_color (Multi.init 0) 5 9 8 7 = Multi.init 0 :=
  ⟨⟨((claim_c7 (Multi.init 0) 0 9 8 7).1 (by decide)).2.2.2.2.1,
    ((claim_c7 (Multi.init 0) 0 9 8 7).1 (by decide)).1⟩,
   (claim_c7 (Multi.init 0) 5 9 8 7).2 (by decide)⟩

/-! ### C9 -/

/-- C9: `stop_auto_mode` twice in a row leaves `auto_mode = false` and
every LED of every strip black after each call, and the second call
returns exactly the state after the first (idempotence). -/
theorem claim_c9 (c : Multi.Controller) :
    ((Multi.stop_auto_mode c).auto_mode = false ∧
      ledsAll (Multi.stop_auto_mode c) (0, 0, 0) = true) ∧
    ((Multi.stop_auto_mode (Multi.stop_auto_mode c)).auto_mode = false ∧
      ledsAll (Multi.stop_auto_mode (Multi.stop_auto_mode c)) (0, 0, 0) = true) ∧
    Multi.stop_auto_mode (Multi.stop_auto_mode c) = Multi.stop_auto_mode c := by
  refine ⟨⟨rfl, ledsAll_set_color _ 0 0 0⟩, ⟨rfl, ledsAll_set_color _ 0 0 0⟩, ?_⟩
  simp [Multi.stop_auto_mode, Multi.clear_leds, Multi.set_color, List.map_map]

/-! ### C1 -/

/-- C1: a BLE write to the color characteristic carrying at least 3
bytes runs `stop_auto_mode()` and then `set_color(R,G,B)` in that
order (first conjunct: the resulting controller is exactly
`set_color (stop_auto_mode _) R G B`), so for every prior engine state
the write leaves `auto_mode = false` and `current_color = (R,G,B)`;
in particular (second group) writing `AUTO:3` to the control
characteristic and then the 3-byte payload `(10,20,30)` to the color
characteristic ends with `auto_mode = false` and
`current_color = (10,20,30)`. -/
theorem claim_c1 (s : Multi.Service) (value : List ℕ) (now now1 now2 : ℤ)
    (hlen : 3 ≤ value.length) :
    ((Multi.handle_write s s.color_handle value now).colorlight =
        Multi.set_color (Multi.stop_auto_mode s.colorlight)
          (value.getD 0 0) (value.getD 1 0) (value.getD 2 0) ∧
      (Multi.handle_write s s.color_handle value now).colorlight.auto_mode = false ∧
      (Multi.handle_write s s.color_handle value now).colorlight.current_color =
        (((value.getD 0 0 : ℕ) : ℤ), ((value.getD 1 0 : ℕ) : ℤ), ((value.getD 2 0 : ℕ) : ℤ))) ∧
    ((Multi.handle_write (Multi.handle_write s s.control_handle
          [65, 85, 84, 79, 58, 51] now1) s.color_handle [10, 20, 30] now2).colorlight.auto_mode
        = false ∧
      (Multi.handle_write (Multi.handle_write s s.control_handle
          [65, 85, 84, 79, 58, 51] now1) s.color_handle [10, 20, 30] now2).colorlight.current_color
        = (10, 20, 30)) := by
  have hcolor : ∀ (t : Multi.Service) (v : List ℕ) (n : ℤ), 3 ≤ v.length →
      Multi.handle_write t t.color_handle v n =
        { t with colorlight := (Multi.set_color (Multi.stop_auto_mode t.colorlight)
            (v.getD 0 0) (v.getD 1 0) (v.getD 2 0)) } := by
    intro t v n hv
    simp [Multi.handle_write, hv]
  have hlen2 : 3 ≤ ([10, 20, 30] : List ℕ).length := by decide
  refine ⟨?_, ?_⟩
  · rw [hcolor s value now hlen]
    exact ⟨rfl, rfl, rfl⟩
  · set s2 := Multi.handle_write s s.control_handle [65, 85, 84, 79, 58, 51] now1 with hs2
    have hch : s2.color_handle = s.color_handle := by
      by_cases hEq : s.control_handle = s.color_handle
      · rw [hs2]
        simp [Multi.handle_write, hEq]
      · rw [hs2]
        by_cases hSelf : s.control_handle = s.control_handle
        · simp only [Multi.handle_write, if_neg (fun h => hEq h), if_pos hSelf]
          cases hdec : asciiDecode [65, 85, 84, 79, 58, 51] <;> rfl
        · exact absurd rfl hSelf
    rw [← hch, hcolor s2 [10, 20, 30] now2 hlen2]
    exact ⟨rfl, rfl⟩

/-- C1 witness: the payload `(10,20,30)` on the fresh service, and the
`AUTO:3`-then-color scenario on the same service. -/
theorem claim_c1_witness :
    (Multi.handle_write serviceW serviceW.color_handle [10, 20, 30] 5).colorlight.auto_mode
      = false ∧
    (Multi.handle_write (Multi.handle_write serviceW serviceW.control_handle
        [65, 85, 84, 79, 58, 51] 6) serviceW.color_handle [10, 20, 30] 7).colorlight.current_color
      = (10, 20, 30) :=
  ⟨(claim_c1 serviceW [10, 20, 30] 5 6 7 (by decide)).1.2.1,
   (claim_c1 serviceW [10, 20, 30] 5 6 7 (by decide)).2.2⟩

/-! ### C8 -/

/-- C8: a control write whose trimmed text is an unknown command, or a
known `AUTO:`/`MUSIC:` command whose argument does not parse as an
integer, returns without raising and leaves the whole engine state
(and so the LED hardware state) exactly unchanged. -/
theorem claim_c8 (c : Multi.Controller) (cmd : String) (now : ℤ)
    (h : ¬ recognized cmd) :
    Multi.handle_command c cmd now = c := by
  unfold Multi.handle_command
  by_cases hA : pyStartsWith cmd "AUTO:" = true
  · rw [if_pos hA]
    split
    · rfl
    · rename_i arg heq
      split
      · rfl
      · rename_i n hp
        refine absurd (Or.inl ⟨hA, ?_⟩) h
        rw [List.getD_eq_getElem?_getD, ← List.get?_eq_getElem?, heq]
        simp [hp]
  · rw [if_neg (fun hc => hA hc)]
    by_cases hS : cmd = "STOP"
    · exact absurd (Or.inr (Or.inl hS)) h
    · rw [if_neg hS]
      by_cases hC : cmd = "CLEAR"
      · exact absurd (Or.inr (Or.inr (Or.inl hC))) h
      · rw [if_neg hC]
        by_cases hM : pyStartsWith cmd "MUSIC:" = true
        · rw [if_pos hM]
          split
          · rfl
          · rename_i arg heq
            split
            · rfl
            · rename_i n hp
              refine absurd (Or.inr (Or.inr (Or.inr ⟨hM, ?_⟩))) h
              rw [List.getD_eq_getElem?_getD, ← List.get?_eq_getElem?, heq]
              simp [hp]
        · rw [if_neg (fun hc => hM hc)]

/-- C8 witness: an unknown command, an `AUTO:` with a non-numeric
argument, and a `MUSIC:` with an empty argument all leave the fresh
controller untouched. -/
theorem claim_c8_witness :
    Multi.handle_command (Multi.init 0) "BOGUS" 3 = Multi.init 0 ∧
    Multi.handle_command (Multi.init 0) "AUTO:x" 3 = Multi.init 0 ∧
    Multi.handle_command (Multi.init 0) "MUSIC:" 3 = Multi.init 0 :=
  ⟨claim_c8 (Multi.init 0) "BOGUS" 3 (by decide),
   claim_c8 (Multi.init 0) "AUTO:x" 3 (by decide),
   claim_c8 (Multi.init 0) "MUSIC:" 3 (by decide)⟩

/-! ### C3 -/

/-- C3 counterexample: in the multi-strip variant
(`main_multi_gpio.py`, the file the claim cites first), the disconnect
handler only discards the handle and re-advertises.  Removing the last
remaining connection of `serviceAuto` leaves `auto_mode = true`, and
the claim — which says the handler stops auto mode and clears the
LEDs — is false there. -/
theorem claim_c3_counterexample :
    (Multi.on_disconnect serviceAuto 5).connections = ∅ ∧
    (Multi.on_disconnect serviceAuto 5).colorlight.auto_mode = true ∧
    (Multi.on_disconnect serviceAuto 5).colorlight = serviceAuto.colorlight := by
  refine ⟨by decide, rfl, rfl⟩

/-- C3 amended: in the single-strip variant (`main.py`), a disconnect
that removes the last remaining connection stops auto mode and clears
the LEDs, leaving `auto_mode = false` and every LED at `(0,0,0)`; the
multi-strip variant's handler instead leaves the controller state
completely unchanged (it only removes the handle and re-advertises). -/
theorem claim_c3_amended (s : Single.Service) (m : Multi.Service) (h hm : ℤ)
    (hlast : (s.connections.erase h).card = 0)
    (hauto : s.penlight.auto_mode = true) :
    ((Single.on_disconnect s h).penlight.auto_mode = false ∧
      (Single.on_disconnect s h).penlight.np.all
        (fun led => decide (led = (0, 0, 0))) = true ∧
      (Single.on_disconnect s h).is_connected = false) ∧
    (Multi.on_disconnect m hm).colorlight = m.colorlight := by
  have hempty : s.connections.erase h = ∅ := Finset.card_eq_zero.mp hlast
  constructor
  · refine ⟨?_, ?_, ?_⟩ <;>
      simp [Single.on_disconnect, hempty, Single.clear_leds, Single.stop_auto_mode,
        Single.set_color, List.all_eq_true, List.mem_replicate]
  · rfl

/-- C3 witness: the single-strip service in auto mode with one
connection, handle `7`, disconnecting that handle. -/
theorem claim_c3_witness :
    (Single.on_disconnect singleAuto 7).penlight.auto_mode = false ∧
    (Multi.on_disconnect serviceW 3).colorlight = serviceW.colorlight :=
  ⟨((claim_c3_amended singleAuto serviceW 7 3 (by decide) rfl).1).1,
   (claim_c3_amended singleAuto serviceW 7 3 (by decide) rfl).2⟩

/-! ### C4 -/

/-- C4 counterexample: starting disconnected, not in auto mode, at
`t = 0` with the blink off, the call at `t = 4900` lights blue, but
the subsequent call at `t = 4999` is a no-op (only 99 ms have elapsed
and the lit phase lasts 100 ms): the LED stays blue and `blink_state`
stays `true`, contradicting the claim that this call clears and sets
`lit = false`. -/
theorem claim_c4_counterexample :
    (Single.update_waiting_blink
        (Single.update_waiting_blink (Single.update_waiting_blink singleIdle 4899) 4900)
        4999).blink_state = true ∧
    (Single.update_waiting_blink
        (Single.update_waiting_blink (Single.update_waiting_blink singleIdle 4899) 4900)
        4999).penlight.current_color = (0, 0, 255) := by
  decide

/-- C4 amended: from the disconnected, not-auto-mode state at `t = 0`
with `lit = false`: the call at `t = 4899` changes nothing; the call
at `t = 4900` sets the color to `(0,0,255)` and `lit = true`; the
subsequent call at `t = 4999` is a no-op (99 ms < 100 ms); and the
call at `t = 5000` clears the LEDs and sets `lit = false`. -/
theorem claim_c4_amended :
    Single.update_waiting_blink singleIdle 4899 = singleIdle ∧
    ((Single.update_waiting_blink singleIdle 4900).penlight.current_color = (0, 0, 255) ∧
      (Single.update_waiting_blink singleIdle 4900).blink_state = true) ∧
    Single.update_waiting_blink (Single.update_waiting_blink singleIdle 4900) 4999 =
      Single.update_waiting_blink singleIdle 4900 ∧
    ((Single.update_waiting_blink (Single.update_waiting_blink singleIdle 4900)
        5000).penlight.current_color = (0, 0, 0) ∧
      (Single.update_waiting_blink (Single.update_waiting_blink singleIdle 4900)
        5000).blink_state = false ∧
      (Single.update_waiting_blink (Single.update_waiting_blink singleIdle 4900)
        5000).penlight.np.all (fun led => decide (led = (0, 0, 0))) = true) := by
  decide

/-! ### C2 -/

/-- C2: with `auto_mode = true` and elapsed time at least the
pattern's interval (`interval` is 500 ms for pattern 3, 1000 ms
otherwise), one call to `update_auto_mode` executes exactly one
pattern step and never throws (the result is `some _`): pattern 1 sets
the whole-device color to `pattern_colors[pattern_index]` and advances
the cursor to `(pattern_index+1) mod 7`; pattern 3 does the same with
`gradient_colors` mod 96; patterns 2 and 4 increment the cursor by
exactly 1 unconditionally; and when the elapsed time is below the
interval the call is a no-op.  (The cursor bounds for patterns 1 and 3
hold in every reachable state; see `claim_c10`.) -/
theorem claim_c2 (c : Multi.Controller) (now : ℤ)
    (hauto : c.auto_mode = true)
    (h1 : c.pattern_type = 1 → c.pattern_index < 7)
    (h3 : c.pattern_type = 3 → c.pattern_index < 96) :
    (Multi.interval c.pattern_type ≤ now - c.last_pattern_update →
      ∃ c', Multi.update_auto_mode c now = some c' ∧
        c'.last_pattern_update = now ∧
        (c.pattern_type = 1 →
          Multi.pattern_colors.get? c.pattern_index = some c'.current_color ∧
          ledsAll c' c'.current_color = true ∧
          c'.pattern_index = (c.pattern_index + 1) % 7) ∧
        (c.pattern_type = 2 → c'.pattern_index = c.pattern_index + 1) ∧
        (c.pattern_type = 3 →
          Multi.gradient_colors.get? c.pattern_index = some c'.current_color ∧
          ledsAll c' c'.current_color = true ∧
          c'.pattern_index = (c.pattern_index + 1) % 96) ∧
        (c.pattern_type = 4 → c'.pattern_index = c.pattern_index + 1)) ∧
    (now - c.last_pattern_update < Multi.interval c.pattern_type →
      Multi.update_auto_mode c now = some c) := by
  have hnotfalse : ¬(c.auto_mode = false) := by
    simp [hauto]
  constructor
  · intro ht
    by_cases hp1 : c.pattern_type = 1
    · have hidx : c.pattern_index < Multi.pattern_colors.length := h1 hp1
      obtain ⟨col, hcol⟩ : ∃ col, Multi.pattern_colors.get? c.pattern_index = some col := by
        rw [List.get?_eq_getElem?]
        exact ⟨_, List.getElem?_eq_getElem hidx⟩
      have heq : Multi.update_auto_mode c now =
          some { Multi.set_color c col.1 col.2.1 col.2.2 with
                 pattern_index := (c.pattern_index + 1) % Multi.pattern_colors.length,
                 last_pattern_update := now } := by
        rw [Multi.update_auto_mode, if_neg hnotfalse, if_pos ht, if_pos hp1, hcol]
      refine ⟨_, heq, rfl, ?_, ?_, ?_, ?_⟩
      · intro _
        refine ⟨?_, ledsAll_set_color c col.1 col.2.1 col.2.2, rfl⟩
        rw [hcol]
        rfl
      · intro hp2
        exact absurd (hp1 ▸ hp2) (by decide)
      · intro hp3
        exact absurd (hp1 ▸ hp3) (by decide)
      · intro hp4
        exact absurd (hp1 ▸ hp4) (by decide)
    · by_cases hp2 : c.pattern_type = 2
      · have heq : Multi.update_auto_mode c now =
            some { (if c.pattern_index % 2 = 0 then
                      Multi.set_color c
                        (Multi.pattern_colors.getD
                          ((c.pattern_index / 2) % Multi.pattern_colors.length) (0, 0, 0)).1
                        (Multi.pattern_colors.getD
                          ((c.pattern_index / 2) % Multi.pattern_colors.length) (0, 0, 0)).2.1
                        (Multi.pattern_colors.getD
                          ((c.pattern_index / 2) % Multi.pattern_colors.length) (0, 0, 0)).2.2
                    else Multi.clear_leds c) with
                   pattern_index := c.pattern_index + 1
                   last_pattern_update := now } := by
          rw [Multi.update_auto_mode, if_neg hnotfalse, if_pos ht, if_neg hp1, if_pos hp2]
        refine ⟨_, heq, rfl, ?_, ?_, ?_, ?_⟩
        · intro hp1'
          exact absurd hp1' hp1
        · intro _
          rfl
        · intro hp3
          exact absurd (hp2 ▸ hp3) (by decide)
        · intro hp4
          exact absurd (hp2 ▸ hp4) (by decide)
      · by_cases hp3 : c.pattern_type = 3
        · have hglen : Multi.gradient_colors.length = 96 := by
            simp [Multi.gradient_colors, Multi.generate_rainbow_gradient]
          have hidx : c.pattern_index < Multi.gradient_colors.length := by
            rw [hglen]
            exact h3 hp3
          obtain ⟨col, hcol⟩ :
              ∃ col, Multi.gradient_colors.get? c.pattern_index = some col := by
            rw [List.get?_eq_getElem?]
            exact ⟨_, List.getElem?_eq_getElem hidx⟩
          have heq : Multi.update_auto_mode c now =
              some { Multi.set_color c col.1 col.2.1 col.2.2 with
                     pattern_index := (c.pattern_index + 1) % Multi.gradient_colors.length,
                     last_pattern_update := now } := by
            rw [Multi.update_auto_mode, if_neg hnotfalse, if_pos ht, if_neg hp1,
              if_neg hp2, if_pos hp3, hcol]
          refine ⟨_, heq, rfl, ?_, ?_, ?_, ?_⟩
          · intro hp1'
            exact absurd hp1' hp1
          · intro hp2'
            exact absurd hp2' hp2
          · intro _
            refine ⟨?_, ledsAll_set_color c col.1 col.2.1 col.2.2, ?_⟩
            · rw [hcol]
              rfl
            · show (c.pattern_index + 1) % Multi.gradient_colors.length =
                (c.pattern_index + 1) % 96
              rw [hglen]
          · intro hp4
            exact absurd (hp3 ▸ hp4) (by decide)
        · by_cases hp4 : c.pattern_type = 4
          · have heq : Multi.update_auto_mode c now =
                some { ((List.range c.strips.length).foldl
                        (fun acc i =>
                          if (c.pattern_index + i) % 2 = 0 then
                            Multi.set_strip_color acc (i : ℤ)
                              (Multi.pattern_colors.getD
                                ((c.pattern_index / 2) % Multi.pattern_colors.length) (0, 0, 0)).1
                              (Multi.pattern_colors.getD
                                ((c.pattern_index / 2) % Multi.pattern_colors.length) (0, 0, 0)).2.1
                              (Multi.pattern_colors.getD
                                ((c.pattern_index / 2) % Multi.pattern_colors.length) (0, 0, 0)).2.2
                          else
                            Multi.set_strip_color acc (i : ℤ) 0 0 0)
                        c) with
                       pattern_index := c.pattern_index + 1
                       last_pattern_update := now } := by
              rw [Multi.update_auto_mode, if_neg hnotfalse, if_pos ht, if_neg hp1,
                if_neg hp2, if_neg hp3, if_pos hp4]
            refine ⟨_, heq, rfl, ?_, ?_, ?_, ?_⟩
            · intro hp1'
              exact absurd hp1' hp1
            · intro hp2'
              exact absurd hp2' hp2
            · intro hp3'
              exact absurd hp3' hp3
            · intro _
              rfl
          · have heq : Multi.update_auto_mode c now =
                some { c with last_pattern_update := now } := by
              rw [Multi.update_auto_mode, if_neg hnotfalse, if_pos ht, if_neg hp1,
                if_neg hp2, if_neg hp3, if_neg hp4]
            refine ⟨_, heq, rfl, ?_, ?_, ?_, ?_⟩
            · intro hp1'
              exact absurd hp1' hp1
            · intro hp2'
              exact absurd hp2' hp2
            · intro hp3'
              exact absurd hp3' hp3
            · intro hp4'
              exact absurd hp4' hp4
  · intro ht
    rw [Multi.update_auto_mode, if_neg hnotfalse, if_neg (not_le.mpr ht)]

/-- C2 witness: pattern 1 freshly started at `t = 0`, ticked at
`t = 1000` (one step happens) and the same state at `t = 999` (no-op). -/
theorem claim_c2_witness :
    (Multi.update_auto_mode (Multi.start_auto_mode (Multi.init 0) 1 0) 1000).isSome = true ∧
    Multi.update_auto_mode (Multi.start_auto_mode (Multi.init 0) 1 0) 999 =
      some (Multi.start_auto_mode (Multi.init 0) 1 0) := by
  constructor
  · obtain ⟨c', hc', -⟩ :=
      (claim_c2 (Multi.start_auto_mode (Multi.init 0) 1 0) 1000 rfl
        (fun _ => by decide) (fun h => absurd h (by decide))).1 (by decide)
    rw [hc']
    rfl
  · exact (claim_c2 (Multi.start_auto_mode (Multi.init 0) 1 0) 999 rfl
      (fun _ => by decide) (fun h => absurd h (by decide))).2 (by decide)

/-! ### Rational-arithmetic lemmas for the HSV conversion -/

lemma pyMod_two_nonneg (a : ℚ) : 0 ≤ pyMod a 2 := by
  have h := Int.floor_le (a / 2)
  unfold pyMod
  nlinarith

lemma pyMod_two_lt (a : ℚ) : pyMod a 2 < 2 := by
  have h := Int.lt_floor_add_one (a / 2)
  unfold pyMod
  nlinarith

lemma pyInt_range {q : ℚ} (h0 : 0 ≤ q) (h1 : q ≤ 255) : 0 ≤ pyInt q ∧ pyInt q ≤ 255 := by
  unfold pyInt
  rw [if_neg (not_lt.mpr h0)]
  refine ⟨Int.floor_nonneg.mpr h0, ?_⟩
  have h2 : (⌊q⌋ : ℚ) ≤ 255 := le_trans (Int.floor_le q) h1
  exact_mod_cast h2

set_option maxHeartbeats 2000000 in
/-- Every output of `_hsv_to_rgb` at full saturation and value is a
valid 8-bit triple, for any hue. -/
lemma hsv_valid (h : ℤ) : valid8 (Multi.hsv_to_rgb h 100 100) = true := by
  have ht0 : 0 ≤ pyMod (((h : ℤ) : ℚ) / 60) 2 := pyMod_two_nonneg _
  have ht2 : pyMod (((h : ℤ) : ℚ) / 60) 2 < 2 := pyMod_two_lt _
  have habs : |pyMod (((h : ℤ) : ℚ) / 60) 2 - 1| ≤ 1 :=
    abs_le.mpr ⟨by linarith, by linarith⟩
  have habs0 : 0 ≤ |pyMod (((h : ℤ) : ℚ) / 60) 2 - 1| := abs_nonneg _
  unfold Multi.hsv_to_rgb valid8
  rw [decide_eq_true_eq]
  norm_num
  split_ifs <;>
    norm_num <;>
    refine ⟨(pyInt_range ?_ ?_).1, (pyInt_range ?_ ?_).2, (pyInt_range ?_ ?_).1,
      (pyInt_range ?_ ?_).2, (pyInt_range ?_ ?_).1, (pyInt_range ?_ ?_).2⟩ <;>
    nlinarith

/-- Hue 0 converts to pure red. -/
lemma hsv_to_rgb_zero : Multi.hsv_to_rgb 0 100 100 = (255, 0, 0) := by
  unfold Multi.hsv_to_rgb pyMod pyInt
  norm_num

/-! ### C6 -/

/-- C6: the precomputed rainbow gradient has exactly 96 entries, its
first entry is pure red `(255,0,0)`, the integer hues
`(i * 360) // 96` feeding successive entries are strictly increasing,
and the hue of the last entry is below 360 degrees. -/
theorem claim_c6 :
    Multi.gradient_colors.length = 96 ∧
    Multi.gradient_colors.get? 0 = some (255, 0, 0) ∧
    ((List.range 96).map (Multi.rainbowHue 96)).Pairwise (· < ·) ∧
    Multi.rainbowHue 96 95 < 360 := by
  refine ⟨?_, ?_, by decide, by decide⟩
  · simp [Multi.gradient_colors, Multi.generate_rainbow_gradient]
  · rw [Multi.gradient_colors, Multi.generate_rainbow_gradient, List.get?_eq_getElem?,
      List.getElem?_map, show (List.range 96)[0]? = some 0 from by decide,
      Option.map_some']
    norm_num [show Multi.rainbowHue 96 0 = 0 from rfl, hsv_to_rgb_zero]

/-! ### Preservation lemmas for C10 -/

lemma ledsValid_set_color (c : Multi.Controller) (r g b : ℤ)
    (hv : valid8 (r, g, b) = true) :
    ledsValid (Multi.set_color c r g b) = true := by
  simp only [ledsValid, Multi.set_color, List.all_eq_true, List.mem_map]
  rintro s ⟨s0, -, rfl⟩ led hled
  rw [List.mem_map] at hled
  obtain ⟨-, -, rfl⟩ := hled
  exact hv

lemma set_strip_color_fields (c : Multi.Controller) (i r g b : ℤ) :
    (Multi.set_strip_color c i r g b).current_color = c.current_color ∧
    (Multi.set_strip_color c i r g b).pattern_type = c.pattern_type := by
  unfold Multi.set_strip_color
  split <;> exact ⟨rfl, rfl⟩

lemma ledsValid_set_strip_color (c : Multi.Controller) (i r g b : ℤ)
    (hv : valid8 (r, g, b) = true) (hc : ledsValid c = true) :
    ledsValid (Multi.set_strip_color c i r g b) = true := by
  unfold Multi.set_strip_color
  split
  · simp only [ledsValid, List.all_eq_true] at hc ⊢
    intro s hs
    rcases List.mem_or_eq_of_mem_set hs with hmem | heq
    · exact hc s hmem
    · subst heq
      simp only [List.all_eq_true, List.mem_map]
      rintro led ⟨-, -, rfl⟩
      exact hv
  · exact hc

lemma foldl_preserve {α : Type} {P : Multi.Controller → Prop}
    {f : Multi.Controller → α → Multi.Controller}
    (hf : ∀ acc a, P acc → P (f acc a)) :
    ∀ (l : List α) (c0 : Multi.Controller), P c0 → P (l.foldl f c0)
  | [], _, hc => hc
  | a :: l, c0, hc => foldl_preserve hf l (f c0 a) (hf c0 a hc)

lemma pattern_colors_valid : Multi.pattern_colors.all valid8 = true := by
  decide

lemma gradient_colors_valid : Multi.gradient_colors.all valid8 = true := by
  rw [List.all_eq_true]
  intro col hcol
  rw [Multi.gradient_colors, Multi.generate_rainbow_gradient, List.mem_map] at hcol
  obtain ⟨i, -, rfl⟩ := hcol
  exact hsv_valid _

lemma mem_valid8 {l : List Color} (hl : l.all valid8 = true) {col : Color}
    (hcol : col ∈ l) : valid8 col = true :=
  (List.all_eq_true.mp hl) col hcol

lemma getD_pattern_colors_mem (k : ℕ) (hk : k < Multi.pattern_colors.length) :
    Multi.pattern_colors.getD k (0, 0, 0) ∈ Multi.pattern_colors := by
  rw [List.getD_eq_getElem?_getD, List.getElem?_eq_getElem hk]
  exact List.getElem_mem hk

/-! ### C10 -/

/-- C10: every base-palette entry and every gradient entry is a valid
8-bit RGB triple; the halved, modulo-reduced palette index used by
patterns 2 and 4 is always in range; and under the reachable-state
cursor invariant `IndexInv` one tick never hits an out-of-range
palette or gradient index (the result is `some _`), preserves the
invariant, and keeps every LED and `current_color` valid whenever they
were valid before the tick. -/
theorem claim_c10 (c : Multi.Controller) (now : ℤ) (hinv : IndexInv c) :
    Multi.pattern_colors.all valid8 = true ∧
    Multi.gradient_colors.all valid8 = true ∧
    (∀ n : ℕ, (n / 2) % Multi.pattern_colors.length < Multi.pattern_colors.length) ∧
    ∃ c', Multi.update_auto_mode c now = some c' ∧ IndexInv c' ∧
      (ledsValid c = true → valid8 c.current_color = true →
        ledsValid c' = true ∧ valid8 c'.current_color = true) := by
  refine ⟨pattern_colors_valid, gradient_colors_valid,
    fun n => Nat.mod_lt _ (by decide), ?_⟩
  by_cases hauto : c.auto_mode = false
  · refine ⟨c, ?_, hinv, fun a b => ⟨a, b⟩⟩
    rw [Multi.update_auto_mode, if_pos hauto]
  · by_cases ht : Multi.interval c.pattern_type ≤ now - c.last_pattern_update
    · by_cases hp1 : c.pattern_type = 1
      · have hidx : c.pattern_index < Multi.pattern_colors.length := hinv.1 hp1
        obtain ⟨col, hcol⟩ :
            ∃ col, Multi.pattern_colors.get? c.pattern_index = some col := by
          rw [List.get?_eq_getElem?]
          exact ⟨_, List.getElem?_eq_getElem hidx⟩
        have hv : valid8 col = true :=
          mem_valid8 pattern_colors_valid (List.get?_mem hcol)
        have heq : Multi.update_auto_mode c now =
            some { Multi.set_color c col.1 col.2.1 col.2.2 with
                   pattern_index := (c.pattern_index + 1) % Multi.pattern_colors.length,
                   last_pattern_update := now } := by
          rw [Multi.update_auto_mode, if_neg hauto, if_pos ht, if_pos hp1, hcol]
        refine ⟨_, heq, ⟨fun _ => Nat.mod_lt _ (by decide), fun h3' => ?_⟩,
          fun _ _ => ⟨ledsValid_set_color c col.1 col.2.1 col.2.2 hv, hv⟩⟩
        exact absurd (show (1 : ℤ) = 3 by rw [← hp1]; exact h3') (by decide)
      · by_cases hp2 : c.pattern_type = 2
        · have hk : (c.pattern_index / 2) % Multi.pattern_colors.length <
              Multi.pattern_colors.length := Nat.mod_lt _ (by decide)
          have hv : valid8 (Multi.pattern_colors.getD
              ((c.pattern_index / 2) % Multi.pattern_colors.length) (0, 0, 0)) = true :=
            mem_valid8 pattern_colors_valid (getD_pattern_colors_mem _ hk)
          by_cases he : c.pattern_index % 2 = 0
          · have heq : Multi.update_auto_mode c now =
                some { Multi.set_color c
                        (Multi.pattern_colors.getD
                          ((c.pattern_index / 2) % Multi.pattern_colors.length) (0, 0, 0)).1
                        (Multi.pattern_colors.getD
                          ((c.pattern_index / 2) % Multi.pattern_colors.length) (0, 0, 0)).2.1
                        (Multi.pattern_colors.getD
                          ((c.pattern_index / 2) % Multi.pattern_colors.length) (0, 0, 0)).2.2
                       with
                       pattern_index := c.pattern_index + 1
                       last_pattern_update := now } := by
              rw [Multi.update_auto_mode, if_neg hauto, if_pos ht, if_neg hp1, if_pos hp2,
                if_pos he]
            refine ⟨_, heq, ⟨fun h1' => ?_, fun h3' => ?_⟩,
              fun _ _ => ⟨ledsValid_set_color c _ _ _ hv, hv⟩⟩
            · exact absurd (show (2 : ℤ) = 1 by rw [← hp2]; exact h1') (by decide)
            · exact absurd (show (2 : ℤ) = 3 by rw [← hp2]; exact h3') (by decide)
          · have heq : Multi.update_auto_mode c now =
                some { Multi.clear_leds c with
                       pattern_index := c.pattern_index + 1
                       last_pattern_update := now } := by
              rw [Multi.update_auto_mode, if_neg hauto, if_pos ht, if_neg hp1, if_pos hp2,
                if_neg he]
            refine ⟨_, heq, ⟨fun h1' => ?_, fun h3' => ?_⟩,
              fun _ _ => ⟨ledsValid_set_color c 0 0 0 (by decide),
                (show valid8 ((0 : ℤ), (0 : ℤ), (0 : ℤ)) = true by decide)⟩⟩
            · exact absurd (show (2 : ℤ) = 1 by rw [← hp2]; exact h1') (by decide)
            · exact absurd (show (2 : ℤ) = 3 by rw [← hp2]; exact h3') (by decide)
        · by_cases hp3 : c.pattern_type = 3
          · have hglen : Multi.gradient_colors.length = 96 := by
              simp [Multi.gradient_colors, Multi.generate_rainbow_gradient]
            have hidx : c.pattern_index < Multi.gradient_colors.length := by
              rw [hglen]
              exact hinv.2 hp3
            obtain ⟨col, hcol⟩ :
                ∃ col, Multi.gradient_colors.get? c.pattern_index = some col := by
              rw [List.get?_eq_getElem?]
              exact ⟨_, List.getElem?_eq_getElem hidx⟩
            have hv : valid8 col = true :=
              mem_valid8 gradient_colors_valid (List.get?_mem hcol)
            have heq : Multi.update_auto_mode c now =
                some { Multi.set_color c col.1 col.2.1 col.2.2 with
                       pattern_index := (c.pattern_index + 1) % Multi.gradient_colors.length,
                       last_pattern_update := now } := by
              rw [Multi.update_auto_mode, if_neg hauto, if_pos ht, if_neg hp1, if_neg hp2,
                if_pos hp3, hcol]
            refine ⟨_, heq, ⟨fun h1' => ?_, fun _ => ?_⟩,
              fun _ _ => ⟨ledsValid_set_color c col.1 col.2.1 col.2.2 hv, hv⟩⟩
            · exact absurd (show (3 : ℤ) = 1 by rw [← hp3]; exact h1') (by decide)
            · show (c.pattern_index + 1) % Multi.gradient_colors.length < 96
              rw [hglen]
              exact Nat.mod_lt _ (by decide)
          · by_cases hp4 : c.pattern_type = 4
            · have hk : (c.pattern_index / 2) % Multi.pattern_colors.length <
                  Multi.pattern_colors.length := Nat.mod_lt _ (by decide)
              have hv : valid8 (Multi.pattern_colors.getD
                  ((c.pattern_index / 2) % Multi.pattern_colors.length) (0, 0, 0)) = true :=
                mem_valid8 pattern_colors_valid (getD_pattern_colors_mem _ hk)
              have heq : Multi.update_auto_mode c now =
                  some { ((List.range c.strips.length).foldl
                          (fun acc i =>
                            if (c.pattern_index + i) % 2 = 0 then
                              Multi.set_strip_color acc (i : ℤ)
                                (Multi.pattern_colors.getD
                                  ((c.pattern_index / 2) % Multi.pattern_colors.length)
                                  (0, 0, 0)).1
                                (Multi.pattern_colors.getD
                                  ((c.pattern_index / 2) % Multi.pattern_colors.length)
                                  (0, 0, 0)).2.1
                                (Multi.pattern_colors.getD
                                  ((c.pattern_index / 2) % Multi.pattern_colors.length)
                                  (0, 0, 0)).2.2
                            else
                              Multi.set_strip_color acc (i : ℤ) 0 0 0)
                          c) with
                         pattern_index := c.pattern_index + 1
                         last_pattern_update := now } := by
                rw [Multi.update_auto_mode, if_neg hauto, if_pos ht, if_neg hp1, if_neg hp2,
                  if_neg hp3, if_pos hp4]
              have hfold : ∀ l : List ℕ,
                  ((l.foldl
                    (fun acc i =>
                      if (c.pattern_index + i) % 2 = 0 then
                        Multi.set_strip_color acc (i : ℤ)
                          (Multi.pattern_colors.getD
                            ((c.pattern_index / 2) % Multi.pattern_colors.length) (0, 0, 0)).1
                          (Multi.pattern_colors.getD
                            ((c.pattern_index / 2) % Multi.pattern_colors.length) (0, 0, 0)).2.1
                          (Multi.pattern_colors.getD
                            ((c.pattern_index / 2) % Multi.pattern_colors.length) (0, 0, 0)).2.2
                      else
                        Multi.set_strip_color acc (i : ℤ) 0 0 0)
                    c).pattern_type = c.pattern_type) ∧
                  (ledsValid c = true →
                    ledsValid (l.foldl
                      (fun acc i =>
                        if (c.pattern_index + i) % 2 = 0 then
                          Multi.set_strip_color acc (i : ℤ)
                            (Multi.pattern_colors.getD
                              ((c.pattern_index / 2) % Multi.pattern_colors.length) (0, 0, 0)).1
                            (Multi.pattern_colors.getD
                              ((c.pattern_index / 2) % Multi.pattern_colors.length) (0, 0, 0)).2.1
                            (Multi.pattern_colors.getD
                              ((c.pattern_index / 2) % Multi.pattern_colors.length) (0, 0, 0)).2.2
                        else
                          Multi.set_strip_color acc (i : ℤ) 0 0 0)
                      c) = true ∧
                    (l.foldl
                      (fun acc i =>
                        if (c.pattern_index + i) % 2 = 0 then
                          Multi.set_strip_color acc (i : ℤ)
                            (Multi.pattern_colors.getD
                              ((c.pattern_index / 2) % Multi.pattern_colors.length) (0, 0, 0)).1
                            (Multi.pattern_colors.getD
                              ((c.pattern_index / 2) % Multi.pattern_colors.length) (0, 0, 0)).2.1
                            (Multi.pattern_colors.getD
                              ((c.pattern_index / 2) % Multi.pattern_colors.length) (0, 0, 0)).2.2
                        else
                          Multi.set_strip_color acc (i : ℤ) 0 0 0)
                      c).current_color = c.current_color) := by
                intro l
                constructor
                · refine foldl_preserve (P := fun acc => acc.pattern_type = c.pattern_type)
                    ?_ l c rfl
                  intro acc a hacc
                  dsimp only
                  split <;> rw [(set_strip_color_fields _ _ _ _ _).2] <;> exact hacc
                · intro hleds
                  refine foldl_preserve
                    (P := fun acc => ledsValid acc = true ∧
                      acc.current_color = c.current_color)
                    ?_ l c ⟨hleds, rfl⟩
                  intro acc a hacc
                  dsimp only
                  split
                  · exact ⟨ledsValid_set_strip_color _ _ _ _ _ hv hacc.1,
                      ((set_strip_color_fields _ _ _ _ _).1).trans hacc.2⟩
                  · exact ⟨ledsValid_set_strip_color _ _ _ _ _ (by decide) hacc.1,
                      ((set_strip_color_fields _ _ _ _ _).1).trans hacc.2⟩
              refine ⟨_, heq, ⟨fun h1' => ?_, fun h3' => ?_⟩, fun hleds hcc => ?_⟩
              · exact absurd (show (4 : ℤ) = 1 by
                  rw [← hp4, ← (hfold (List.range c.strips.length)).1]; exact h1') (by decide)
              · exact absurd (show (4 : ℤ) = 3 by
                  rw [← hp4, ← (hfold (List.range c.strips.length)).1]; exact h3') (by decide)
              · obtain ⟨hl, hcc'⟩ := (hfold (List.range c.strips.length)).2 hleds
                exact ⟨hl, by
                  show valid8 ((List.range c.strips.length).foldl _ c).current_color = true
                  rw [hcc']
                  exact hcc⟩
            · refine ⟨{ c with last_pattern_update := now }, ?_, hinv,
                fun a b => ⟨a, b⟩⟩
              rw [Multi.update_auto_mode, if_neg hauto, if_pos ht, if_neg hp1, if_neg hp2,
                if_neg hp3, if_neg hp4]
    · refine ⟨c, ?_, hinv, fun a b => ⟨a, b⟩⟩
      rw [Multi.update_auto_mode, if_neg hauto, if_neg ht]

/-- C10 witness: the invariant holds for a freshly started pattern-3
controller and one tick at `t = 500` keeps everything valid. -/
theorem claim_c10_witness :
    Multi.pattern_colors.all valid8 = true ∧
    (Multi.update_auto_mode (Multi.start_auto_mode (Multi.init 0) 3 0) 500).isSome = true := by
  have h := claim_c10 (Multi.start_auto_mode (Multi.init 0) 3 0) 500
    ⟨fun hh => absurd hh (by decide), fun _ => by decide⟩
  obtain ⟨c', hc', -, -⟩ := h.2.2.2
  exact ⟨h.1, by rw [hc']; rfl⟩

end Penlight
